import Mathlib

/-!
Verification of the core logic of the treestats-bot repository.

The development shallowly embeds the two genuine pieces of logic of the
program:

* the attachment retrieval pipeline (`src/discord.rs`: `is_valid_snowflake`,
  `is_pcap_file`, `fetch_message`, `download_attachment`; `src/web.rs`:
  `discord_pull`), and
* the fuzzy server-name resolver (`src/bot.rs`: `find_server`).

Strings are modelled as `List Char` (Rust byte lengths and `List Char`
lengths agree on the ASCII data the program handles).  Network effects are
modelled by passing the would-be upstream responses as explicit parameters;
the functions are otherwise direct translations of the Rust sources.
Floating point similarity scores are modelled by exact rationals.
-/

/-- Strings are modelled as lists of characters. -/
abbrev Str := List Char

/-- Convert a Lean string literal to the model representation. -/
def str (s : String) : Str := s.toList

/-- ASCII lower-casing of a single character, as performed byte-wise by
Rust's `eq_ignore_ascii_case` and (on ASCII input) by `str::to_lowercase`. -/
def asciiLower (c : Char) : Char :=
  if 'A' ≤ c ∧ c ≤ 'Z' then Char.ofNat (c.toNat + 32) else c

/-- Lower-case a string character by character (models `str::to_lowercase`
on the ASCII server names the program compares). -/
def lowerStr (s : Str) : Str := s.map asciiLower

/-- Rust's `str::eq_ignore_ascii_case`: equality after ASCII case folding. -/
def eqIgnoreAsciiCase (a b : Str) : Bool := lowerStr a == lowerStr b

/-- Rust's `str::ends_with`: `endsWith s suf` is true iff `suf` is a suffix
of `s` (case-sensitive). -/
def endsWith (s suf : Str) : Bool := suf.isSuffixOf s

/-- `is_valid_snowflake` from `src/discord.rs`:
`!id.is_empty() && id.len() >= 17 && id.len() <= 19
 && id.chars().all(|c| c.is_ascii_digit())`. -/
def is_valid_snowflake (id : Str) : Bool :=
  !id.isEmpty && decide (17 ≤ id.length) && decide (id.length ≤ 19) &&
    id.all (fun c => c.isDigit)

/-- `is_pcap_file` from `src/discord.rs`:
`filename.ends_with(".pcap") || filename.ends_with(".pcapng")`. -/
def is_pcap_file (filename : Str) : Bool :=
  endsWith filename (str ".pcap") || endsWith filename (str ".pcapng")

/-- C3: `validate(s)` (the Rust `is_valid_snowflake`) returns true iff `s`
is non-empty, its length is between 17 and 19 inclusive, and every
character is an ASCII decimal digit.  The function is a total Lean
function, so it has no failure mode. -/
theorem is_valid_snowflake_spec (s : Str) :
    is_valid_snowflake s = true ↔
      s ≠ [] ∧ 17 ≤ s.length ∧ s.length ≤ 19 ∧ ∀ c ∈ s, c.isDigit = true := by
  simp [is_valid_snowflake, List.isEmpty_iff, List.all_eq_true, and_assoc]

/-- The `attachments` entries of a Discord message (`DiscordAttachment` in
`src/discord.rs`). -/
structure DiscordAttachment where
  id : Str
  filename : Str
  url : Str
  content_type : Option Str
  size : Option Nat
deriving DecidableEq

/-- A Discord message as deserialized in `src/discord.rs`. -/
structure DiscordMessage where
  id : Str
  channel_id : Str
  attachments : List DiscordAttachment
deriving DecidableEq

/-- `MAX_ATTACHMENT_SIZE` from `src/discord.rs`: `100 * 1024 * 1024`. -/
def MAX_ATTACHMENT_SIZE : Nat := 100 * 1024 * 1024

/-- The upstream response to the message-fetch request of `fetch_message`,
passed in explicitly.  `success parsed` models a 2xx response whose body
deserializes to `parsed` (with `none` for a body that fails to parse as a
`DiscordMessage`); `failure status` models a non-2xx response with the
given status code; `transportError` models a connection/timeout failure. -/
inductive FetchResponse where
  | transportError
  | success (parsed : Option DiscordMessage)
  | failure (status : Nat)
deriving DecidableEq

/-- The response to the attachment download of `download_attachment`.
`success content_length body` models a 2xx response declaring the given
`Content-Length` (or none) whose full body read yields `body` (with `none`
for a failed body read); `failure status` models a non-2xx response;
`transportError` a connection failure. -/
inductive DownloadResponse where
  | transportError
  | success (content_length : Option Nat) (body : Option (List Nat))
  | failure (status : Nat)
deriving DecidableEq

/-- `fetch_message` from `src/discord.rs`.  The network call is modelled by
the explicit `resp` parameter; the `token` only feeds the Authorization
header in the source and does not influence the modelled control flow.
Error results are `(status, message)` pairs exactly as produced by the
source (`StatusCode` rendered as its numeric value). -/
def fetch_message (channel_id message_id : Str) (token : String)
    (resp : FetchResponse) : Except (Nat × String) DiscordMessage :=
  if !(is_valid_snowflake channel_id) then
    .error (400, "Invalid channel ID format")
  else if !(is_valid_snowflake message_id) then
    .error (400, "Invalid message ID format")
  else
    match resp with
    | .transportError => .error (500, "Failed to connect to Discord API")
    | .success none => .error (500, "Failed to parse Discord response")
    | .success (some message) =>
      if message.attachments.any (fun a => is_pcap_file a.filename) then
        .ok message
      else
        .error (400, "Message has no PCAP attachments (.pcap or .pcapng)")
    | .failure status =>
      if status = 401 then
        .error (401, "Discord authentication failed (invalid or missing token)")
      else if status = 404 then
        .error (404, "Discord message not found")
      else if status = 403 then
        .error (403, "Access denied to Discord message")
      else
        .error (500, "Discord API error")

/-- `download_attachment` from `src/discord.rs`.  The source reads
`response.content_length().unwrap_or(0)`, compares it against
`MAX_ATTACHMENT_SIZE`, and only then reads the whole body with
`response.bytes()`; a failed body read maps to a 500. -/
def download_attachment (resp : DownloadResponse) :
    Except (Nat × String) (List Nat) :=
  match resp with
  | .transportError => .error (500, "Failed to download attachment")
  | .success cl body =>
    let content_length := cl.getD 0
    if content_length > MAX_ATTACHMENT_SIZE then
      .error (400, "Attachment exceeds maximum size limit (100 MB)")
    else
      match body with
      | none => .error (500, "Failed to read attachment")
      | some bytes => .ok bytes
  | .failure _ => .error (500, "Failed to download attachment")

/-- The attachment-selection step of `discord_pull` in `src/web.rs`:
`message.attachments.iter().find(|a| a.filename.ends_with(".pcap")
 || a.filename.ends_with(".pcapng"))`. -/
def selectAttachment (attachments : List DiscordAttachment) :
    Option DiscordAttachment :=
  attachments.find? (fun a =>
    endsWith a.filename (str ".pcap") || endsWith a.filename (str ".pcapng"))

/-- `discord_pull` from `src/web.rs`.  `token` is the result of the
`DISCORD_OAUTH_TOKEN` environment lookup (`none` when unset), `resp` the
upstream response to the message fetch, and `dl` maps an attachment URL to
the response of its download.  A successful return of the byte payload is
served by axum as status 200 with exactly those bytes as the body. -/
def discord_pull (channel_id message_id : Str) (token : Option String)
    (resp : FetchResponse) (dl : Str → DownloadResponse) :
    Except (Nat × String) (List Nat) :=
  match token with
  | none => .error (401, "Discord OAuth token not configured")
  | some tok =>
    match fetch_message channel_id message_id tok resp with
    | .error e => .error e
    | .ok message =>
      match selectAttachment message.attachments with
      | none => .error (400, "No PCAP attachments found in message")
      | some att =>
        match download_attachment (dl att.url) with
        | .error e => .error e
        | .ok bytes => .ok bytes

/-- `PlayerInfo` from `src/bot.rs`. -/
structure PlayerInfo where
  count : Nat
  updated_at : Str
  age : Str
deriving DecidableEq

/-- `ServerInfo` from `src/bot.rs` (the records of `servers.json`). -/
structure ServerInfo where
  name : Str
  description : Str
  server_type : Str
  software : Str
  host : Str
  port : Str
  website_url : Option Str
  discord_url : Option Str
  players : Option PlayerInfo
deriving DecidableEq

/-- Modelled from the spec: the inner scan of the Jaro similarity.
`findMatchAux b used c lo hi j` returns the index (counting from `j`) of
the first character of `b` that lies in the matching window `[lo, hi]`,
equals `c`, and has not been consumed by an earlier match. -/
def findMatchAux : List Char → List Bool → Char → Nat → Nat → Nat → Option Nat
  | [], _, _, _, _, _ => none
  | _ :: _, [], _, _, _, _ => none
  | bc :: bs, u :: us, c, lo, hi, j =>
    if lo ≤ j ∧ j ≤ hi ∧ bc = c ∧ u = false then some j
    else findMatchAux bs us c lo hi (j + 1)

/-- Modelled from the spec: the greedy left-to-right matching pass of the
Jaro similarity.  `jaroScan b w a i used` walks the remaining characters
`a` (starting at index `i`), matching each against an unconsumed character
of `b` within window radius `w`; it returns the final consumption mask on
`b` together with the matched characters of `a` in order. -/
def jaroScan (b : List Char) (w : Nat) :
    List Char → Nat → List Bool → List Bool × List Char
  | [], _, used => (used, [])
  | c :: cs, i, used =>
    match findMatchAux b used c (i - w) (i + w) 0 with
    | none => jaroScan b w cs (i + 1) used
    | some j =>
      let rest := jaroScan b w cs (i + 1) (used.set j true)
      (rest.1, c :: rest.2)

/-- Number of positions at which two lists differ (zipped pointwise). -/
def countDiff : List Char → List Char → Nat
  | c :: cs, d :: ds => (if c = d then 0 else 1) + countDiff cs ds
  | _, _ => 0

/-- Modelled from the spec: the match/transposition statistics of the Jaro
similarity of `a` and `b`: the number `m` of matched characters (greedy,
within window radius `max |a| |b| / 2 - 1`) and the number `t₂` of
positions at which the matched subsequence of `a` differs from the matched
subsequence of `b` (the classical transposition count is `t₂ / 2`). -/
def jaroStats (a b : List Char) : Nat × Nat :=
  let w := (max a.length b.length) / 2 - 1
  let scan := jaroScan b w a 0 (List.replicate b.length false)
  let matchedB := ((b.zip scan.1).filter (fun p => p.2)).map (fun p => p.1)
  (scan.2.length, countDiff scan.2 matchedB)

/-- Length of the longest common prefix of two lists. -/
def sharedStartLen : List Char → List Char → Nat
  | c :: cs, d :: ds => if c = d then sharedStartLen cs ds + 1 else 0
  | _, _ => 0

/-- Modelled from the spec: the `strsim::jaro_winkler` call of
`find_server` in `src/bot.rs` (the `strsim` crate is an external
dependency, not part of this repository's sources; the spec describes it
as a prefix-weighted Jaro-Winkler similarity in `[0,1]`).

With `m` and `t₂` the Jaro statistics, `la = |a|`, `lb = |b|`, the Jaro
similarity is `jaro = (m/la + m/lb + (2m - t₂)/(2m)) / 3` and the
Jaro-Winkler score is `jaro + (l/10) * (1 - jaro)` (capped at 1) where `l`
is the common prefix length capped at 4.  Both are written below as a
single normalized fraction so that the value is kernel-computable:
`jaro = N / D` with `N = 2·lb·m² + 2·la·m² + (2m - t₂)·la·lb` and
`D = 6·la·lb·m`, and the final score is `(10·N + l·(D - N)) / (10·D)`. -/
def jaroWinkler (a b : List Char) : ℚ :=
  let la := a.length
  let lb := b.length
  if la = 0 ∧ lb = 0 then 1
  else if la = 0 ∨ lb = 0 then 0
  else
    let s := jaroStats a b
    let m := s.1
    let t2 := s.2
    if m = 0 then 0
    else
      let N : Int := 2 * lb * m * m + 2 * la * m * m + (2 * m - t2) * la * lb
      let D : Int := 6 * la * lb * m
      let l : Int := min (sharedStartLen a b) 4
      min (mkRat (10 * N + l * (D - N)) (10 * D).toNat) 1

/-- `SIMILARITY_THRESHOLD` from `src/bot.rs` (`0.8`), as an exact
rational. -/
def SIMILARITY_THRESHOLD : ℚ := mkRat 4 5

/-- The length gate of `find_server` in `src/bot.rs`:
`(s.name.len() as f64 * 0.5).ceil() as usize`, i.e. `⌈n / 2⌉ = (n + 1) / 2`
(exact for every machine-size `n`, since `n as f64 * 0.5` is exact). -/
def min_length (name : Str) : Nat := (name.length + 1) / 2

/-- The gate filter of `find_server`: `query.len() >= min_length`. -/
def gatePass (query : Str) (s : ServerInfo) : Bool :=
  decide (min_length s.name ≤ query.length)

/-- The similarity computed by `find_server`:
`strsim::jaro_winkler(&s.name.to_lowercase(), &query.to_lowercase())`. -/
def fuzzyScore (query : Str) (s : ServerInfo) : ℚ :=
  jaroWinkler (lowerStr s.name) (lowerStr query)

/-- The scored candidate list of `find_server` after the gate filter, the
scoring map, and the threshold filter
(`.filter(gate).map(score).filter(|(_, sim)| *sim >= SIMILARITY_THRESHOLD)`
in `src/bot.rs`). -/
def survivors (servers : List ServerInfo) (query : Str) :
    List (ServerInfo × ℚ) :=
  ((servers.filter (gatePass query)).map
      (fun s => (s, fuzzyScore query s))).filter
    (fun p => decide (SIMILARITY_THRESHOLD ≤ p.2))

/-- One step of Rust's `Iterator::max_by` on similarity: `cmp::max_by`
keeps the accumulator only when it compares strictly greater, so equal
elements are resolved in favour of the newer one. -/
def stepMax (acc y : ServerInfo × ℚ) : ServerInfo × ℚ :=
  if y.2 < acc.2 then acc else y

/-- Rust's `Iterator::max_by` over similarity
(`.max_by(|(_, a), (_, b)| a.partial_cmp(b).unwrap())` in `src/bot.rs`);
`partial_cmp` never sees a NaN since the scores are genuine similarity
values, so it is modelled by the total order on `ℚ`. -/
def maxBySim : List (ServerInfo × ℚ) → Option (ServerInfo × ℚ)
  | [] => none
  | x :: xs => some (xs.foldl stepMax x)

/-- `find_server` from `src/bot.rs`: first an exact case-insensitive scan,
then the gated, thresholded fuzzy maximum. -/
def find_server (servers : List ServerInfo) (query : Str) :
    Option ServerInfo :=
  match servers.find? (fun s => eqIgnoreAsciiCase s.name query) with
  | some server => some server
  | none => (maxBySim (survivors servers query)).map (fun p => p.1)

/-! ### Helper lemmas -/

theorem stepMax_cases (acc y : ServerInfo × ℚ) :
    stepMax acc y = acc ∨ stepMax acc y = y := by
  unfold stepMax; split <;> simp

theorem le_stepMax_left (acc y : ServerInfo × ℚ) :
    acc.2 ≤ (stepMax acc y).2 := by
  unfold stepMax; split
  · exact le_refl _
  · exact le_of_not_lt (by assumption)

theorem le_stepMax_right (acc y : ServerInfo × ℚ) :
    y.2 ≤ (stepMax acc y).2 := by
  unfold stepMax; split
  · exact le_of_lt (by assumption)
  · exact le_refl _

theorem foldl_stepMax_mem (xs : List (ServerInfo × ℚ)) (x : ServerInfo × ℚ) :
    xs.foldl stepMax x ∈ x :: xs := by
  induction xs generalizing x with
  | nil => simp
  | cons y ys ih =>
    have h := ih (stepMax x y)
    rw [List.foldl_cons]
    rcases stepMax_cases x y with hc | hc <;> rw [hc] at h ⊢ <;>
      simp only [List.mem_cons] at h ⊢ <;> tauto

theorem foldl_stepMax_ge (xs : List (ServerInfo × ℚ)) (x : ServerInfo × ℚ) :
    ∀ z ∈ x :: xs, z.2 ≤ (xs.foldl stepMax x).2 := by
  induction xs generalizing x with
  | nil => intro z hz; rw [List.mem_singleton] at hz; subst hz; simp
  | cons y ys ih =>
    intro z hz
    rw [List.foldl_cons]
    have h := ih (stepMax x y)
    rcases List.mem_cons.mp hz with rfl | hz'
    · exact le_trans (le_stepMax_left z y)
        (h _ (List.mem_cons_self _ _))
    · rcases List.mem_cons.mp hz' with rfl | hz''
      · exact le_trans (le_stepMax_right x z)
          (h _ (List.mem_cons_self _ _))
      · exact h z (List.mem_cons_of_mem _ hz'')

theorem foldl_stepMax_strict (xs : List (ServerInfo × ℚ)) (x s : ServerInfo × ℚ)
    (hs : s ∈ x :: xs) (hmax : ∀ z ∈ x :: xs, z ≠ s → z.2 < s.2) :
    xs.foldl stepMax x = s := by
  by_contra hne
  have hmem := foldl_stepMax_mem xs x
  have hlt := hmax _ hmem hne
  have hge := foldl_stepMax_ge xs x s hs
  exact absurd hge (not_le.mpr hlt)

theorem foldl_stepMax_split (xs : List (ServerInfo × ℚ)) (x : ServerInfo × ℚ) :
    ∃ l₁ l₂, x :: xs = l₁ ++ (xs.foldl stepMax x) :: l₂ ∧
      ∀ z ∈ l₂, z.2 < (xs.foldl stepMax x).2 := by
  induction xs generalizing x with
  | nil => exact ⟨[], [], rfl, by simp⟩
  | cons y ys ih =>
    rw [List.foldl_cons]
    by_cases hc : y.2 < x.2
    · rw [show stepMax x y = x from by unfold stepMax; exact if_pos hc]
      obtain ⟨l₁, l₂, heq, hlt⟩ := ih x
      set r := List.foldl stepMax x ys with hr
      cases l₁ with
      | nil =>
        simp only [List.nil_append, List.cons.injEq] at heq
        refine ⟨[], y :: ys, by simp [← heq.1], ?_⟩
        intro z hz
        rcases List.mem_cons.mp hz with rfl | hz'
        · rw [← heq.1]; exact hc
        · exact hlt z (heq.2 ▸ hz')
      | cons a t =>
        simp only [List.cons_append, List.cons.injEq] at heq
        refine ⟨a :: y :: t, l₂, ?_, hlt⟩
        rw [heq.1, heq.2]
        simp
    · rw [show stepMax x y = y from by unfold stepMax; exact if_neg hc]
      obtain ⟨l₁, l₂, heq, hlt⟩ := ih y
      set r := List.foldl stepMax y ys with hr
      refine ⟨x :: l₁, l₂, ?_, hlt⟩
      rw [List.cons_append, ← heq]

theorem maxBySim_eq_none_iff (l : List (ServerInfo × ℚ)) :
    maxBySim l = none ↔ l = [] := by
  cases l <;> simp [maxBySim]

theorem maxBySim_mem (l : List (ServerInfo × ℚ)) (p : ServerInfo × ℚ)
    (h : maxBySim l = some p) : p ∈ l := by
  cases l with
  | nil => simp [maxBySim] at h
  | cons x xs =>
    simp only [maxBySim, Option.some.injEq] at h
    exact h ▸ foldl_stepMax_mem xs x

theorem maxBySim_ge (l : List (ServerInfo × ℚ)) (p : ServerInfo × ℚ)
    (h : maxBySim l = some p) : ∀ z ∈ l, z.2 ≤ p.2 := by
  cases l with
  | nil => simp [maxBySim] at h
  | cons x xs =>
    simp only [maxBySim, Option.some.injEq] at h
    exact h ▸ foldl_stepMax_ge xs x

theorem maxBySim_strict (l : List (ServerInfo × ℚ)) (p : ServerInfo × ℚ)
    (hp : p ∈ l) (hmax : ∀ z ∈ l, z ≠ p → z.2 < p.2) : maxBySim l = some p := by
  cases l with
  | nil => simp at hp
  | cons x xs =>
    simp only [maxBySim, Option.some.injEq]
    exact foldl_stepMax_strict xs x p hp hmax

theorem maxBySim_split (l : List (ServerInfo × ℚ)) (p : ServerInfo × ℚ)
    (h : maxBySim l = some p) :
    ∃ l₁ l₂, l = l₁ ++ p :: l₂ ∧ ∀ z ∈ l₂, z.2 < p.2 := by
  cases l with
  | nil => simp [maxBySim] at h
  | cons x xs =>
    simp only [maxBySim, Option.some.injEq] at h
    exact h ▸ foldl_stepMax_split xs x

theorem mem_survivors_iff (servers : List ServerInfo) (query : Str)
    (p : ServerInfo × ℚ) :
    p ∈ survivors servers query ↔
      p.1 ∈ servers ∧ gatePass query p.1 = true ∧
        p.2 = fuzzyScore query p.1 ∧ SIMILARITY_THRESHOLD ≤ p.2 := by
  simp only [survivors, List.mem_filter, List.mem_map, decide_eq_true_eq]
  constructor
  · rintro ⟨⟨s, ⟨hs1, hs2⟩, rfl⟩, hth⟩
    exact ⟨hs1, hs2, rfl, hth⟩
  · rintro ⟨h1, h2, h3, h4⟩
    refine ⟨⟨p.1, ⟨h1, h2⟩, ?_⟩, h4⟩
    cases p with
    | mk a b => simp only at h3 ⊢; simp [h3]

theorem find_server_no_exact (servers : List ServerInfo) (query : Str)
    (hexact : ∀ s ∈ servers, eqIgnoreAsciiCase s.name query = false) :
    find_server servers query =
      (maxBySim (survivors servers query)).map (fun p => p.1) := by
  unfold find_server
  rw [List.find?_eq_none.mpr (fun s hs => by simp [hexact s hs])]

/-! ### Claims about the server-name resolver -/

/-- C1: for every query and server list with no case-insensitive exact name
match, `find_server` (i) returns `none` iff no candidate survives the gate
and the 0.8 threshold, (ii) only ever returns a server that passed the
length gate (query length at least half the name length, rounded up) with
a lowercased Jaro-Winkler score of at least 0.8, and (iii) returns the
server with the strictly highest surviving score whenever one server
strictly dominates every other surviving candidate. -/
theorem find_server_fuzzy_spec (servers : List ServerInfo) (query : Str)
    (hexact : ∀ s ∈ servers, eqIgnoreAsciiCase s.name query = false) :
    (find_server servers query = none ↔ survivors servers query = []) ∧
    (∀ s, find_server servers query = some s →
        s ∈ servers ∧ gatePass query s = true ∧
          SIMILARITY_THRESHOLD ≤ fuzzyScore query s) ∧
    (∀ s ∈ servers, gatePass query s = true →
        SIMILARITY_THRESHOLD ≤ fuzzyScore query s →
        (∀ t ∈ servers, t ≠ s → gatePass query t = true →
            SIMILARITY_THRESHOLD ≤ fuzzyScore query t →
            fuzzyScore query t < fuzzyScore query s) →
        find_server servers query = some s) := by
  have hfs := find_server_no_exact servers query hexact
  refine ⟨?_, ?_, ?_⟩
  · rw [hfs]
    rw [Option.map_eq_none', maxBySim_eq_none_iff]
  · intro s hs
    rw [hfs] at hs
    rw [Option.map_eq_some'] at hs
    obtain ⟨p, hp, rfl⟩ := hs
    have hmem := maxBySim_mem _ _ hp
    obtain ⟨h1, h2, h3, h4⟩ := (mem_survivors_iff servers query p).mp hmem
    exact ⟨h1, h2, h3 ▸ h4⟩
  · intro s hs hg hth hmax
    rw [hfs]
    have hpmem : (s, fuzzyScore query s) ∈ survivors servers query :=
      (mem_survivors_iff servers query _).mpr ⟨hs, hg, rfl, hth⟩
    have hstrict : maxBySim (survivors servers query) =
        some (s, fuzzyScore query s) := by
      apply maxBySim_strict _ _ hpmem
      intro z hz hzne
      obtain ⟨hz1, hz2, hz3, hz4⟩ := (mem_survivors_iff servers query z).mp hz
      by_cases hzeq : z.1 = s
      · exfalso
        apply hzne
        cases z with
        | mk a b =>
          simp only at hz3 hzeq
          rw [hzeq] at hz3 ⊢
          rw [hz3]
      · have hlt := hmax z.1 hz1 hzeq hz2 (hz3 ▸ hz4)
        rw [hz3]
        exact hlt
    rw [hstrict]
    rfl

/-- Concrete server record for the C1 witness. -/
def c1Server : ServerInfo :=
  ⟨str "Lighthouse", [], [], [], str "play.example.org", str "9000",
    none, none, none⟩

/-- C1 witness: a concrete instantiation of `find_server_fuzzy_spec`
(query "Lighthous" against the single server "Lighthouse": no exact match,
the gate 5 ≤ 9 passes, and the score 49/50 clears the threshold). -/
theorem find_server_fuzzy_spec_witness :
    find_server [c1Server] (str "Lighthous") = some c1Server :=
  (find_server_fuzzy_spec [c1Server] (str "Lighthous")
      (by decide)).2.2 c1Server (by simp) (by decide) (by decide)
    (fun t ht hne _ _ => absurd (by simpa using ht) hne)

/-- C4: if some server's name matches the query up to ASCII case, the
resolver short-circuits: its result is exactly the result of the
case-insensitive scan (so no fuzzy scoring can influence it), and that
scan yields the first such server. -/
theorem find_server_exact_match (servers : List ServerInfo) (query : Str)
    (h : ∃ s ∈ servers, eqIgnoreAsciiCase s.name query = true) :
    find_server servers query =
      servers.find? (fun s => eqIgnoreAsciiCase s.name query) ∧
    ∃ s, servers.find? (fun s => eqIgnoreAsciiCase s.name query) = some s ∧
      eqIgnoreAsciiCase s.name query = true := by
  obtain ⟨s, hs, hpred⟩ := h
  have hsome : (servers.find? (fun s => eqIgnoreAsciiCase s.name query)).isSome := by
    rw [List.find?_isSome]
    exact ⟨s, hs, hpred⟩
  obtain ⟨a, ha⟩ := Option.isSome_iff_exists.mp hsome
  constructor
  · unfold find_server
    rw [ha]
  · have hp := List.find?_some ha
    exact ⟨a, ha, hp⟩

/-- Concrete server records for the C4 witness (the spec's exact-match
precedence example). -/
def c4Alpha : ServerInfo :=
  ⟨str "Alpha", [], [], [], str "alpha.example.org", str "9000",
    none, none, none⟩

/-- Second record of the C4 witness. -/
def c4Alpha2 : ServerInfo :=
  ⟨str "alpha-2", [], [], [], str "alpha2.example.org", str "9000",
    none, none, none⟩

/-- C4 witness: query "ALPHA" against ["Alpha", "alpha-2"] returns the
first record by the case-insensitive exact scan (an instantiation of
`find_server_exact_match`). -/
theorem find_server_exact_match_witness :
    find_server [c4Alpha, c4Alpha2] (str "ALPHA") = some c4Alpha :=
  ((find_server_exact_match [c4Alpha, c4Alpha2] (str "ALPHA")
      ⟨c4Alpha, by simp, by decide⟩).1).trans (by decide)

/-- First record of the C5 tie input. -/
def c5Server1 : ServerInfo :=
  ⟨str "Frostfell", [], [], [], str "play1.example.org", str "9000",
    none, none, none⟩

/-- Second record of the C5 tie input: same name, so it receives exactly
the same fuzzy score for every query, but a different host. -/
def c5Server2 : ServerInfo :=
  ⟨str "Frostfell", [], [], [], str "play2.example.org", str "9000",
    none, none, none⟩

/-- C5 counterexample: for query "frostfel" both records pass the gate, tie
at the same maximal surviving score, and no exact match exists — yet
`find_server` returns the SECOND record, not the first maximal element in
iteration order (Rust's `Iterator::max_by` resolves ties in favour of the
later element). -/
theorem find_server_first_max_counterexample :
    (∀ s ∈ [c5Server1, c5Server2],
        eqIgnoreAsciiCase s.name (str "frostfel") = false) ∧
    gatePass (str "frostfel") c5Server1 = true ∧
    gatePass (str "frostfel") c5Server2 = true ∧
    fuzzyScore (str "frostfel") c5Server1 = fuzzyScore (str "frostfel") c5Server2 ∧
    SIMILARITY_THRESHOLD ≤ fuzzyScore (str "frostfel") c5Server1 ∧
    c5Server1 ≠ c5Server2 ∧
    find_server [c5Server1, c5Server2] (str "frostfel") = some c5Server2 := by
  decide

/-- C5 amended: with no exact match and a non-empty surviving candidate
list, `find_server` returns the LAST maximal element in iteration order:
the result splits the surviving list as `l₁ ++ p :: l₂` where `p` is the
returned candidate, every survivor scores at most `p`, and everything
after `p` scores strictly less (so among tied maxima the last one wins). -/
theorem find_server_last_max (servers : List ServerInfo) (query : Str)
    (hexact : ∀ s ∈ servers, eqIgnoreAsciiCase s.name query = false)
    (hne : survivors servers query ≠ []) :
    ∃ p l₁ l₂, survivors servers query = l₁ ++ p :: l₂ ∧
      find_server servers query = some p.1 ∧
      (∀ z ∈ survivors servers query, z.2 ≤ p.2) ∧
      ∀ z ∈ l₂, z.2 < p.2 := by
  have hfs := find_server_no_exact servers query hexact
  obtain ⟨x, xs, hsv⟩ := List.exists_cons_of_ne_nil hne
  have hmax : maxBySim (survivors servers query) =
      some (xs.foldl stepMax x) := by
    rw [hsv]; rfl
  refine ⟨xs.foldl stepMax x, ?_⟩
  obtain ⟨l₁, l₂, heq, hlt⟩ := maxBySim_split _ _ hmax
  refine ⟨l₁, l₂, heq, ?_, maxBySim_ge _ _ hmax, hlt⟩
  rw [hfs, hmax]
  rfl

/-- C5 witness: the amended statement instantiated at the concrete tie
input of the counterexample. -/
theorem find_server_last_max_witness :
    ∃ p l₁ l₂,
      survivors [c5Server1, c5Server2] (str "frostfel") = l₁ ++ p :: l₂ ∧
      find_server [c5Server1, c5Server2] (str "frostfel") = some p.1 ∧
      (∀ z ∈ survivors [c5Server1, c5Server2] (str "frostfel"), z.2 ≤ p.2) ∧
      ∀ z ∈ l₂, z.2 < p.2 :=
  find_server_last_max [c5Server1, c5Server2] (str "frostfel")
    (by decide) (by decide)

/-! ### Claims about attachment selection -/

/-- First-match characterization of `List.find?`. -/
theorem find?_eq_some_first {α : Type} (p : α → Bool) (l : List α) (a : α) :
    l.find? p = some a ↔
      ∃ l₁ l₂, l = l₁ ++ a :: l₂ ∧ p a = true ∧ ∀ x ∈ l₁, p x = false := by
  induction l with
  | nil => simp
  | cons y ys ih =>
    by_cases hy : p y = true
    · rw [List.find?_cons_of_pos _ hy]
      constructor
      · rintro h
        rw [Option.some_inj] at h
        subst h
        exact ⟨[], ys, rfl, hy, by simp⟩
      · rintro ⟨l₁, l₂, heq, hpa, hl₁⟩
        cases l₁ with
        | nil =>
          simp only [List.nil_append, List.cons.injEq] at heq
          rw [heq.1]
        | cons b t =>
          simp only [List.cons_append, List.cons.injEq] at heq
          exact absurd (heq.1 ▸ hy) (by simp [hl₁ b (by simp)])
    · have hy' : p y = false := by simpa using hy
      rw [List.find?_cons_of_neg _ (by simp [hy'])]
      rw [ih]
      constructor
      · rintro ⟨l₁, l₂, heq, hpa, h1⟩
        refine ⟨y :: l₁, l₂, by simp [heq], hpa, ?_⟩
        intro x hx
        rcases List.mem_cons.mp hx with rfl | hx'
        · exact hy'
        · exact h1 x hx'
      · rintro ⟨l₁, l₂, heq, hpa, h1⟩
        cases l₁ with
        | nil =>
          simp only [List.nil_append, List.cons.injEq] at heq
          exact absurd (heq.1 ▸ hy') (by simp [hpa])
        | cons b t =>
          simp only [List.cons_append, List.cons.injEq] at heq
          refine ⟨t, l₂, heq.2, hpa, ?_⟩
          intro x hx
          exact h1 x (by simp [hx])

/-- C6: attachment selection returns exactly the first attachment, in the
upstream-supplied order, whose filename ends with the case-sensitive
suffix ".pcap" or ".pcapng": the result is `some a` iff the list splits as
`l₁ ++ a :: l₂` with `a` matching and everything before `a` not matching
(first-match-wins, not best-match). -/
theorem selectAttachment_first (atts : List DiscordAttachment)
    (a : DiscordAttachment) :
    selectAttachment atts = some a ↔
      ∃ l₁ l₂, atts = l₁ ++ a :: l₂ ∧
        (endsWith a.filename (str ".pcap") ||
          endsWith a.filename (str ".pcapng")) = true ∧
        ∀ x ∈ l₁, (endsWith x.filename (str ".pcap") ||
          endsWith x.filename (str ".pcapng")) = false :=
  find?_eq_some_first _ atts a

/-- Attachments of the C6 witness example. -/
def c6Notes : DiscordAttachment :=
  ⟨str "1", str "notes.txt", str "https://cdn.example/notes.txt", none, none⟩

/-- Second attachment of the C6 witness example. -/
def c6Trace : DiscordAttachment :=
  ⟨str "2", str "trace.pcapng", str "https://cdn.example/trace.pcapng",
    none, none⟩

/-- Third attachment of the C6 witness example. -/
def c6Trace2 : DiscordAttachment :=
  ⟨str "3", str "trace2.pcap", str "https://cdn.example/trace2.pcap",
    none, none⟩

/-- C6 witness: the spec's example ["notes.txt", "trace.pcapng",
"trace2.pcap"] selects "trace.pcapng" (first qualifying in listed order),
via `selectAttachment_first`. -/
theorem selectAttachment_first_witness :
    selectAttachment [c6Notes, c6Trace, c6Trace2] = some c6Trace :=
  (selectAttachment_first [c6Notes, c6Trace, c6Trace2] c6Trace).mpr
    ⟨[c6Notes], [c6Trace2], rfl, by decide, by decide⟩

/-! ### Claims about the download ceiling -/

/-- C2 (code bug): when the response declares NO content length,
`download_attachment` does not enforce the 100 MiB ceiling while reading
the body: `content_length().unwrap_or(0)` makes the ceiling check compare
0, and `response.bytes()` then reads the entire body unchecked, so a body
of 104,857,601 bytes is returned whole instead of failing with
PayloadTooLarge. -/
theorem download_attachment_no_length_overrun :
    download_attachment (.success none
        (some (List.replicate (MAX_ATTACHMENT_SIZE + 1) 0))) =
      .ok (List.replicate (MAX_ATTACHMENT_SIZE + 1) 0) ∧
    MAX_ATTACHMENT_SIZE <
      (List.replicate (MAX_ATTACHMENT_SIZE + 1) (0 : Nat)).length :=
  ⟨rfl, by simp⟩

/-- C8: a declared content length of 104,857,601 bytes fails with the
PayloadTooLarge error (status 400) for EVERY body — in particular the
result never depends on the body, i.e. the check precedes any body read —
while a declared length of exactly 104,857,600 passes the ceiling check
and, on a successful body read, returns the payload. -/
theorem download_attachment_ceiling_boundary :
    (∀ body, download_attachment (.success (some (MAX_ATTACHMENT_SIZE + 1)) body) =
        .error (400, "Attachment exceeds maximum size limit (100 MB)")) ∧
    (∀ bytes, download_attachment
        (.success (some MAX_ATTACHMENT_SIZE) (some bytes)) = .ok bytes) := by
  constructor
  · intro body
    simp only [download_attachment, Option.getD_some]
    rw [if_pos (Nat.lt_succ_self _)]
  · intro bytes
    simp only [download_attachment, Option.getD_some]
    rw [if_neg (lt_irrefl _)]

/-! ### Claims about the retrieval pipeline and its error mapping -/

theorem selectAttachment_any (atts : List DiscordAttachment)
    (att : DiscordAttachment) (h : selectAttachment atts = some att) :
    atts.any (fun a => is_pcap_file a.filename) = true := by
  have hmem := List.mem_of_find?_eq_some h
  have hp := List.find?_some h
  exact List.any_eq_true.mpr ⟨att, hmem, hp⟩

theorem any_pcap_selectAttachment_isSome (atts : List DiscordAttachment)
    (h : atts.any (fun a => is_pcap_file a.filename) = true) :
    ∃ att, selectAttachment atts = some att := by
  obtain ⟨x, hx, hpx⟩ := List.any_eq_true.mp h
  cases hsel : selectAttachment atts with
  | some a => exact ⟨a, rfl⟩
  | none => exact absurd hpx (List.find?_eq_none.mp hsel x hx)

theorem fetch_message_ok_any (cid mid : Str) (tok : String)
    (resp : FetchResponse) (msg : DiscordMessage)
    (h : fetch_message cid mid tok resp = .ok msg) :
    msg.attachments.any (fun a => is_pcap_file a.filename) = true := by
  unfold fetch_message at h
  repeat' split at h
  all_goals try exact Except.noConfusion h
  injection h with h'
  subst h'
  assumption

theorem fetch_message_error_ne (cid mid : Str) (tok : String)
    (resp : FetchResponse) (e : Nat × String)
    (h : fetch_message cid mid tok resp = .error e) :
    e ≠ (400, "No PCAP attachments found in message") := by
  unfold fetch_message at h
  repeat' split at h
  all_goals first
    | exact Except.noConfusion h
    | (injection h with h'; subst h'; decide)

theorem download_attachment_error_ne (resp : DownloadResponse)
    (e : Nat × String) (h : download_attachment resp = .error e) :
    e ≠ (400, "No PCAP attachments found in message") := by
  cases resp with
  | transportError =>
    simp only [download_attachment] at h
    injection h with h'; subst h'; decide
  | failure s =>
    simp only [download_attachment] at h
    injection h with h'; subst h'; decide
  | success cl body =>
    simp only [download_attachment] at h
    by_cases hb : cl.getD 0 > MAX_ATTACHMENT_SIZE
    · rw [if_pos hb] at h
      injection h with h'; subst h'; decide
    · rw [if_neg hb] at h
      cases body with
      | none => injection h with h'; subst h'; decide
      | some bytes => exact Except.noConfusion h

/-- C9: with valid identifiers, a configured credential, an upstream fetch
succeeding with a message whose selected attachment downloads successfully
under the ceiling, `discord_pull` returns exactly the byte sequence of the
download, unchanged (axum serves an `Ok` payload as status 200 with those
bytes as the body). -/
theorem discord_pull_success (cid mid : Str) (tok : String)
    (msg : DiscordMessage) (att : DiscordAttachment)
    (dl : Str → DownloadResponse) (cl : Option Nat) (payload : List Nat)
    (hc : is_valid_snowflake cid = true) (hm : is_valid_snowflake mid = true)
    (hsel : selectAttachment msg.attachments = some att)
    (hdl : dl att.url = .success cl (some payload))
    (hcl : cl.getD 0 ≤ MAX_ATTACHMENT_SIZE) :
    discord_pull cid mid (some tok) (.success (some msg)) dl = .ok payload := by
  have hany := selectAttachment_any _ _ hsel
  have hfetch : fetch_message cid mid tok (.success (some msg)) = .ok msg := by
    simp [fetch_message, hc, hm, hany]
  unfold discord_pull
  simp only [hfetch, hsel, hdl]
  simp only [download_attachment, Option.getD_some]
  rw [if_neg (not_lt.mpr hcl)]

/-- Attachment of the C9 witness. -/
def c9Att : DiscordAttachment :=
  ⟨str "1", str "trace.pcap", str "https://cdn.example/trace.pcap",
    none, none⟩

/-- Message of the C9 witness. -/
def c9Msg : DiscordMessage :=
  ⟨str "12345678901234568", str "12345678901234567", [c9Att]⟩

/-- C9 witness: `discord_pull_success` instantiated with concrete valid
identifiers, a token, a one-attachment message, and a 3-byte download. -/
theorem discord_pull_success_witness :
    discord_pull (str "12345678901234567") (str "12345678901234568")
      (some "token-value") (.success (some c9Msg))
      (fun _ => .success (some 3) (some [1, 2, 3])) = .ok [1, 2, 3] :=
  discord_pull_success (str "12345678901234567") (str "12345678901234568")
    "token-value" c9Msg c9Att (fun _ => .success (some 3) (some [1, 2, 3]))
    (some 3) [1, 2, 3] (by decide) (by decide) (by decide) rfl (by decide)

/-- C10: (i) whenever `fetch_message` returns a message successfully, that
message has at least one attachment whose filename ends with ".pcap" or
".pcapng" (the fetcher's post-check), and consequently (ii) the selector's
"No PCAP attachments found in message" error branch in `discord_pull` is
unreachable: no input whatsoever can produce that error.  The condition is
thus checked twice per request — in the fetcher's post-check and again by
the selector — both before any download occurs. -/
theorem fetch_postcheck_selector_unreachable :
    (∀ (cid mid : Str) (tok : String) (resp : FetchResponse)
        (msg : DiscordMessage), fetch_message cid mid tok resp = .ok msg →
        msg.attachments.any (fun a => is_pcap_file a.filename) = true) ∧
    (∀ (cid mid : Str) (token : Option String) (resp : FetchResponse)
        (dl : Str → DownloadResponse),
        discord_pull cid mid token resp dl ≠
          .error (400, "No PCAP attachments found in message")) := by
  refine ⟨fun cid mid tok resp msg h => fetch_message_ok_any _ _ _ _ _ h, ?_⟩
  intro cid mid token resp dl h
  unfold discord_pull at h
  cases token with
  | none =>
    dsimp only at h
    injection h with h'
    exact absurd h' (by decide)
  | some tok =>
    dsimp only at h
    cases hf : fetch_message cid mid tok resp with
    | error e =>
      rw [hf] at h
      injection h with h'
      exact fetch_message_error_ne _ _ _ _ _ hf h'
    | ok msg =>
      rw [hf] at h
      dsimp only at h
      obtain ⟨att, hsel⟩ :=
        any_pcap_selectAttachment_isSome _ (fetch_message_ok_any _ _ _ _ _ hf)
      rw [hsel] at h
      dsimp only at h
      cases hdl : download_attachment (dl att.url) with
      | error e =>
        rw [hdl] at h
        dsimp only at h
        injection h with h'
        exact download_attachment_error_ne _ _ hdl h'
      | ok bytes =>
        rw [hdl] at h
        dsimp only at h
        exact Except.noConfusion h

/-- Message of the C10 witness. -/
def c10Msg : DiscordMessage :=
  ⟨str "12345678901234568", str "12345678901234567",
    [⟨str "1", str "capture.pcapng", str "https://cdn.example/capture.pcapng",
      none, none⟩]⟩

/-- C10 witness: the post-check conclusion instantiated at a concrete
successful fetch, and the unreachability of the selector error at a
concrete request. -/
theorem fetch_postcheck_selector_unreachable_witness :
    c10Msg.attachments.any (fun a => is_pcap_file a.filename) = true ∧
    discord_pull (str "12345678901234567") (str "12345678901234568")
      (some "token-value") (.success (some c10Msg))
      (fun _ => .transportError) ≠
      .error (400, "No PCAP attachments found in message") :=
  ⟨fetch_postcheck_selector_unreachable.1 (str "12345678901234567")
      (str "12345678901234568") "token-value" (.success (some c10Msg)) c10Msg
      rfl,
    fetch_postcheck_selector_unreachable.2 (str "12345678901234567")
      (str "12345678901234568") (some "token-value") (.success (some c10Msg))
      (fun _ => .transportError)⟩

/-- C7: every failure kind of the retrieval pipeline maps to exactly one
external status code, as observed at `discord_pull`: missing credential
and upstream 401 map to 401; bad channel or message identifier, missing
matching attachment, and oversize payload map to 400; upstream 403 maps to
403; upstream 404 maps to 404; transport failure, unparseable upstream
response, any other non-2xx upstream status, and all download failures
(transport, non-2xx, failed body read) map to 500. -/
theorem discord_pull_error_mapping :
    (∀ (cid mid : Str) (resp : FetchResponse) (dl : Str → DownloadResponse),
        discord_pull cid mid none resp dl =
          .error (401, "Discord OAuth token not configured")) ∧
    (∀ (cid mid : Str) (tok : String) (resp : FetchResponse)
        (dl : Str → DownloadResponse), is_valid_snowflake cid = false →
        discord_pull cid mid (some tok) resp dl =
          .error (400, "Invalid channel ID format")) ∧
    (∀ (cid mid : Str) (tok : String) (resp : FetchResponse)
        (dl : Str → DownloadResponse), is_valid_snowflake cid = true →
        is_valid_snowflake mid = false →
        discord_pull cid mid (some tok) resp dl =
          .error (400, "Invalid message ID format")) ∧
    (∀ (cid mid : Str) (tok : String) (dl : Str → DownloadResponse),
        is_valid_snowflake cid = true → is_valid_snowflake mid = true →
        discord_pull cid mid (some tok) .transportError dl =
          .error (500, "Failed to connect to Discord API")) ∧
    (∀ (cid mid : Str) (tok : String) (dl : Str → DownloadResponse),
        is_valid_snowflake cid = true → is_valid_snowflake mid = true →
        discord_pull cid mid (some tok) (.success none) dl =
          .error (500, "Failed to parse Discord response")) ∧
    (∀ (cid mid : Str) (tok : String) (dl : Str → DownloadResponse)
        (msg : DiscordMessage),
        is_valid_snowflake cid = true → is_valid_snowflake mid = true →
        msg.attachments.any (fun a => is_pcap_file a.filename) = false →
        discord_pull cid mid (some tok) (.success (some msg)) dl =
          .error (400, "Message has no PCAP attachments (.pcap or .pcapng)")) ∧
    (∀ (cid mid : Str) (tok : String) (dl : Str → DownloadResponse),
        is_valid_snowflake cid = true → is_valid_snowflake mid = true →
        discord_pull cid mid (some tok) (.failure 401) dl =
          .error (401, "Discord authentication failed (invalid or missing token)")) ∧
    (∀ (cid mid : Str) (tok : String) (dl : Str → DownloadResponse),
        is_valid_snowflake cid = true → is_valid_snowflake mid = true →
        discord_pull cid mid (some tok) (.failure 404) dl =
          .error (404, "Discord message not found")) ∧
    (∀ (cid mid : Str) (tok : String) (dl : Str → DownloadResponse),
        is_valid_snowflake cid = true → is_valid_snowflake mid = true →
        discord_pull cid mid (some tok) (.failure 403) dl =
          .error (403, "Access denied to Discord message")) ∧
    (∀ (cid mid : Str) (tok : String) (dl : Str → DownloadResponse)
        (s : Nat), is_valid_snowflake cid = true →
        is_valid_snowflake mid = true → s ≠ 401 → s ≠ 404 → s ≠ 403 →
        discord_pull cid mid (some tok) (.failure s) dl =
          .error (500, "Discord API error")) ∧
    (∀ (cid mid : Str) (tok : String) (dl : Str → DownloadResponse)
        (msg : DiscordMessage) (att : DiscordAttachment),
        is_valid_snowflake cid = true → is_valid_snowflake mid = true →
        selectAttachment msg.attachments = some att →
        dl att.url = .transportError →
        discord_pull cid mid (some tok) (.success (some msg)) dl =
          .error (500, "Failed to download attachment")) ∧
    (∀ (cid mid : Str) (tok : String) (dl : Str → DownloadResponse)
        (msg : DiscordMessage) (att : DiscordAttachment) (s : Nat),
        is_valid_snowflake cid = true → is_valid_snowflake mid = true →
        selectAttachment msg.attachments = some att →
        dl att.url = .failure s →
        discord_pull cid mid (some tok) (.success (some msg)) dl =
          .error (500, "Failed to download attachment")) ∧
    (∀ (cid mid : Str) (tok : String) (dl : Str → DownloadResponse)
        (msg : DiscordMessage) (att : DiscordAttachment) (cl : Option Nat)
        (body : Option (List Nat)),
        is_valid_snowflake cid = true → is_valid_snowflake mid = true →
        selectAttachment msg.attachments = some att →
        dl att.url = .success cl body →
        MAX_ATTACHMENT_SIZE < cl.getD 0 →
        discord_pull cid mid (some tok) (.success (some msg)) dl =
          .error (400, "Attachment exceeds maximum size limit (100 MB)")) ∧
    (∀ (cid mid : Str) (tok : String) (dl : Str → DownloadResponse)
        (msg : DiscordMessage) (att : DiscordAttachment) (cl : Option Nat),
        is_valid_snowflake cid = true → is_valid_snowflake mid = true →
        selectAttachment msg.attachments = some att →
        dl att.url = .success cl none →
        cl.getD 0 ≤ MAX_ATTACHMENT_SIZE →
        discord_pull cid mid (some tok) (.success (some msg)) dl =
          .error (500, "Failed to read attachment")) := by
  refine ⟨?_, ?_, ?_, ?_, ?_, ?_, ?_, ?_, ?_, ?_, ?_, ?_, ?_, ?_⟩
  · intro cid mid resp dl
    rfl
  · intro cid mid tok resp dl hc
    simp [discord_pull, fetch_message, hc]
  · intro cid mid tok resp dl hc hm
    simp [discord_pull, fetch_message, hc, hm]
  · intro cid mid tok dl hc hm
    simp [discord_pull, fetch_message, hc, hm]
  · intro cid mid tok dl hc hm
    simp [discord_pull, fetch_message, hc, hm]
  · intro cid mid tok dl msg hc hm hany
    simp [discord_pull, fetch_message, hc, hm, hany]
  · intro cid mid tok dl hc hm
    simp [discord_pull, fetch_message, hc, hm]
  · intro cid mid tok dl hc hm
    simp [discord_pull, fetch_message, hc, hm]
  · intro cid mid tok dl hc hm
    simp [discord_pull, fetch_message, hc, hm]
  · intro cid mid tok dl s hc hm h1 h2 h3
    simp [discord_pull, fetch_message, hc, hm, h1, h2, h3]
  · intro cid mid tok dl msg att hc hm hsel hdl
    have hany := selectAttachment_any _ _ hsel
    have hfetch : fetch_message cid mid tok (.success (some msg)) = .ok msg := by
      simp [fetch_message, hc, hm, hany]
    unfold discord_pull
    simp only [hfetch, hsel, hdl]
    rfl
  · intro cid mid tok dl msg att s hc hm hsel hdl
    have hany := selectAttachment_any _ _ hsel
    have hfetch : fetch_message cid mid tok (.success (some msg)) = .ok msg := by
      simp [fetch_message, hc, hm, hany]
    unfold discord_pull
    simp only [hfetch, hsel, hdl]
    rfl
  · intro cid mid tok dl msg att cl body hc hm hsel hdl hbig
    have hany := selectAttachment_any _ _ hsel
    have hfetch : fetch_message cid mid tok (.success (some msg)) = .ok msg := by
      simp [fetch_message, hc, hm, hany]
    unfold discord_pull
    simp only [hfetch, hsel, hdl]
    simp only [download_attachment]
    rw [if_pos hbig]
  · intro cid mid tok dl msg att cl hc hm hsel hdl hcl
    have hany := selectAttachment_any _ _ hsel
    have hfetch : fetch_message cid mid tok (.success (some msg)) = .ok msg := by
      simp [fetch_message, hc, hm, hany]
    unfold discord_pull
    simp only [hfetch, hsel, hdl]
    simp only [download_attachment]
    rw [if_neg (not_lt.mpr hcl)]

/-- Message without capture attachments for the C7 witness. -/
def c7MsgNone : DiscordMessage :=
  ⟨str "12345678901234568", str "12345678901234567",
    [⟨str "1", str "notes.txt", str "https://cdn.example/notes.txt",
      none, none⟩]⟩

/-- Capture attachment for the C7 witness. -/
def c7Att : DiscordAttachment :=
  ⟨str "2", str "trace.pcap", str "https://cdn.example/trace.pcap",
    none, none⟩

/-- Message with a capture attachment for the C7 witness. -/
def c7Msg : DiscordMessage :=
  ⟨str "12345678901234568", str "12345678901234567", [c7Att]⟩

/-- C7 witness: every conjunct of `discord_pull_error_mapping`
instantiated at concrete inputs. -/
theorem discord_pull_error_mapping_witness :
    (discord_pull (str "12345678901234567") (str "12345678901234568") none
        .transportError (fun _ => .transportError) =
      .error (401, "Discord OAuth token not configured")) ∧
    (discord_pull (str "123") (str "12345678901234568") (some "tok")
        .transportError (fun _ => .transportError) =
      .error (400, "Invalid channel ID format")) ∧
    (discord_pull (str "12345678901234567") (str "123") (some "tok")
        .transportError (fun _ => .transportError) =
      .error (400, "Invalid message ID format")) ∧
    (discord_pull (str "12345678901234567") (str "12345678901234568")
        (some "tok") .transportError (fun _ => .transportError) =
      .error (500, "Failed to connect to Discord API")) ∧
    (discord_pull (str "12345678901234567") (str "12345678901234568")
        (some "tok") (.success none) (fun _ => .transportError) =
      .error (500, "Failed to parse Discord response")) ∧
    (discord_pull (str "12345678901234567") (str "12345678901234568")
        (some "tok") (.success (some c7MsgNone)) (fun _ => .transportError) =
      .error (400, "Message has no PCAP attachments (.pcap or .pcapng)")) ∧
    (discord_pull (str "12345678901234567") (str "12345678901234568")
        (some "tok") (.failure 401) (fun _ => .transportError) =
      .error (401, "Discord authentication failed (invalid or missing token)")) ∧
    (discord_pull (str "12345678901234567") (str "12345678901234568")
        (some "tok") (.failure 404) (fun _ => .transportError) =
      .error (404, "Discord message not found")) ∧
    (discord_pull (str "12345678901234567") (str "12345678901234568")
        (some "tok") (.failure 403) (fun _ => .transportError) =
      .error (403, "Access denied to Discord message")) ∧
    (discord_pull (str "12345678901234567") (str "12345678901234568")
        (some "tok") (.failure 502) (fun _ => .transportError) =
      .error (500, "Discord API error")) ∧
    (discord_pull (str "12345678901234567") (str "12345678901234568")
        (some "tok") (.success (some c7Msg)) (fun _ => .transportError) =
      .error (500, "Failed to download attachment")) ∧
    (discord_pull (str "12345678901234567") (str "12345678901234568")
        (some "tok") (.success (some c7Msg)) (fun _ => .failure 502) =
      .error (500, "Failed to download attachment")) ∧
    (discord_pull (str "12345678901234567") (str "12345678901234568")
        (some "tok") (.success (some c7Msg))
        (fun _ => .success (some (MAX_ATTACHMENT_SIZE + 1)) none) =
      .error (400, "Attachment exceeds maximum size limit (100 MB)")) ∧
    (discord_pull (str "12345678901234567") (str "12345678901234568")
        (some "tok") (.success (some c7Msg)) (fun _ => .success (some 10) none) =
      .error (500, "Failed to read attachment")) :=
  ⟨discord_pull_error_mapping.1 _ _ _ _,
    discord_pull_error_mapping.2.1 _ _ "tok" _ _ (by decide),
    discord_pull_error_mapping.2.2.1 _ _ "tok" _ _ (by decide) (by decide),
    discord_pull_error_mapping.2.2.2.1 _ _ "tok" _ (by decide) (by decide),
    discord_pull_error_mapping.2.2.2.2.1 _ _ "tok" _ (by decide) (by decide),
    discord_pull_error_mapping.2.2.2.2.2.1 _ _ "tok" _ c7MsgNone (by decide)
      (by decide) (by decide),
    discord_pull_error_mapping.2.2.2.2.2.2.1 _ _ "tok" _ (by decide)
      (by decide),
    discord_pull_error_mapping.2.2.2.2.2.2.2.1 _ _ "tok" _ (by decide)
      (by decide),
    discord_pull_error_mapping.2.2.2.2.2.2.2.2.1 _ _ "tok" _ (by decide)
      (by decide),
    discord_pull_error_mapping.2.2.2.2.2.2.2.2.2.1 _ _ "tok" _ 502
      (by decide) (by decide) (by decide) (by decide) (by decide),
    discord_pull_error_mapping.2.2.2.2.2.2.2.2.2.2.1 _ _ "tok" _ c7Msg c7Att
      (by decide) (by decide) (by decide) rfl,
    discord_pull_error_mapping.2.2.2.2.2.2.2.2.2.2.2.1 _ _ "tok" _ c7Msg
      c7Att 502 (by decide) (by decide) (by decide) rfl,
    discord_pull_error_mapping.2.2.2.2.2.2.2.2.2.2.2.2.1 _ _ "tok" _ c7Msg
      c7Att (some (MAX_ATTACHMENT_SIZE + 1)) none (by decide) (by decide)
      (by decide) rfl (by decide),
    discord_pull_error_mapping.2.2.2.2.2.2.2.2.2.2.2.2.2 _ _ "tok" _ c7Msg
      c7Att (some 10) (by decide) (by decide) (by decide) rfl (by decide)⟩
